import Mathlib

/-!
Shallow embedding of the python script scheduler (`schtk.py`) and proofs
about the behaviour its specification describes.

Conventions of the embedding:
* instants are naturals counting microseconds since an epoch, matching the
  microsecond resolution of python `datetime`; `usPerDay` is one day;
* python exceptions are an explicit `PyError` value; operations that mutate
  state and may raise return the state as mutated up to the raise point
  together with an `Except`/`Option PyError` result;
* the sqlite job table is a list of `JobRec` plus the AUTOINCREMENT counter;
  the APScheduler job store is a list of `(scheduler_id, Trigger)` pairs;
* `datetime.now()` is read twice by `schedule_job` in the source; the
  embedding passes a single ambient instant `now` used for both reads, the
  abstraction the specification itself uses for the recurrence resolver.
-/

/-- Python exception kinds that the embedded code can raise. -/
inductive PyError where
  | valueError
  | typeError
  | indexError
  | jobLookupError
deriving Repr, DecidableEq

/-- Microseconds in one day. -/
def usPerDay : Nat := 86400000000

/-- Value of `datetime.now().replace(hour=h, minute=m, second=s)` when the
arguments are in range: the day and the microsecond component of `now` are
kept, the hour, minute and second are replaced. -/
def todayAt (now : Nat) (h m s : Int) : Nat :=
  (now / usPerDay) * usPerDay +
    h.toNat * 3600000000 + m.toNat * 60000000 + s.toNat * 1000000 + now % 1000000

/-- Embedding of `datetime.now().replace(hour=h, minute=m, second=s)`:
python raises `ValueError` when a component is out of its range. -/
def replaceHMS (now : Nat) (h m s : Int) : Except PyError Nat :=
  if 0 ≤ h ∧ h < 24 ∧ 0 ≤ m ∧ m < 60 ∧ 0 ≤ s ∧ s < 60 then
    Except.ok (todayAt now h m s)
  else
    Except.error PyError.valueError

/-- Embedding of `os.path.basename` as used on Windows paths: the longest
suffix containing neither `/` nor `\` (drive-relative forms never occur in
this program). -/
def pyBasename (s : String) : String :=
  String.mk ((s.toList.reverse.takeWhile (fun c => c != '/' && c != '\\')).reverse)

/-- Decimal value of a digit run; `none` when a non-digit occurs. -/
def digitsVal (l : List Char) : Option Nat :=
  l.foldl
    (fun acc c =>
      acc.bind (fun n => if c.isDigit then some (n * 10 + (c.toNat - 48)) else none))
    (some 0)

/-- Embedding of python `int(str)` on a character list: an optional sign
followed by at least one digit; anything else raises `ValueError`. -/
def pyIntChars (l : List Char) : Except PyError Int :=
  match l with
  | [] => Except.error PyError.valueError
  | '-' :: rest =>
    match rest, digitsVal rest with
    | _ :: _, some n => Except.ok (-(n : Int))
    | _, _ => Except.error PyError.valueError
  | '+' :: rest =>
    match rest, digitsVal rest with
    | _ :: _, some n => Except.ok ((n : Int))
    | _, _ => Except.error PyError.valueError
  | l' =>
    match digitsVal l' with
    | some n => Except.ok ((n : Int))
    | none => Except.error PyError.valueError

/-- Embedding of python `int(str)` on strings. -/
def pyInt (s : String) : Except PyError Int :=
  pyIntChars s.toList

/-- Embedding of python `str.split` on a one-character separator. -/
def splitOnPred (p : Char → Bool) (l : List Char) : List (List Char) :=
  l.foldr
    (fun c acc =>
      match acc with
      | [] => if p c then [[], []] else [[c]]
      | a :: as => if p c then [] :: a :: as else (c :: a) :: as)
    [[]]

/-- Embedding of `int(frequency.split("_")[1].replace("d", ""))` from
`schedule_job`'s custom branch. -/
def parseCustomDays (freq : String) : Except PyError Int :=
  match (splitOnPred (fun c => c == '_') freq.toList)[1]? with
  | none => Except.error PyError.indexError
  | some part => pyIntChars (part.filter (fun c => c != 'd'))

/-- Embedding of python `str.startswith`. -/
def pyStartsWith (pre s : String) : Bool :=
  List.isPrefixOf pre.toList s.toList

/-- Trigger kinds handed to `scheduler.add_job`, carrying exactly the
arguments the source passes: `cron(hour, minute, second)` for daily,
`interval(days)` for weekly (7), monthly (28, from `weeks=4`) and
`custom_<n>d` (n), `date(run_date)` for the one-shot branch. -/
inductive Trigger where
  | cron (hour minute second : Int)
  | interval (days : Int)
  | date (runDate : Nat)
deriving Repr, DecidableEq

/-- One row of the sqlite `jobs` table. Tuple indices of the source:
0 id, 1 script_path, 2 hour, 3 minute, 4 second, 5 frequency, 6 active,
7 scheduler_id. -/
structure JobRec where
  id : Nat
  script_path : String
  hour : Int
  minute : Int
  second : Int
  frequency : String
  active : Int
  scheduler_id : Option String
deriving Repr, DecidableEq

/-- Combined durable state: the `jobs` table with its AUTOINCREMENT counter
and the APScheduler trigger registry. -/
structure AppState where
  db : List JobRec
  registry : List (String × Trigger)
  nextId : Nat
deriving Repr, DecidableEq

/-- Modelled from the spec: Register in the Scheduler Core stores the
trigger under its id, replacing any trigger already held for that id
(cancel-then-add), since APScheduler itself is outside the repository. -/
def registryAdd (reg : List (String × Trigger)) (sid : String) (t : Trigger) :
    List (String × Trigger) :=
  reg.filter (fun p => p.1 != sid) ++ [(sid, t)]

/-- Modelled from the spec: removing a trigger id from the Scheduler Core
registry raises a lookup error when the id is absent — which is why the
source wraps the call in try/except. -/
def scheduler_remove_job (reg : List (String × Trigger)) (sid : String) :
    Except PyError (List (String × Trigger)) :=
  if reg.any (fun p => p.1 == sid) then
    Except.ok (reg.filter (fun p => p.1 != sid))
  else
    Except.error PyError.jobLookupError

/-- Embedding of `remove_scheduler_job`: the raw removal wrapped in
try/except, so a missing id leaves the registry unchanged and raises
nothing. -/
def remove_scheduler_job (reg : List (String × Trigger)) (sid : String) :
    List (String × Trigger) :=
  match scheduler_remove_job reg sid with
  | Except.ok r => r
  | Except.error _ => reg

/-- Embedding of `add_job_to_db`: INSERT with a fresh AUTOINCREMENT id,
`scheduler_id` initially NULL; returns the new row id. -/
def add_job_to_db (st : AppState) (script_path : String) (hour minute second : Int)
    (frequency : String) (active : Int) : AppState × Nat :=
  let id := st.nextId
  ({ st with
      db := st.db ++ [⟨id, script_path, hour, minute, second, frequency, active, none⟩],
      nextId := id + 1 },
    id)

/-- Embedding of `update_job_scheduler_id`: UPDATE of the one column. -/
def update_job_scheduler_id (st : AppState) (job_db_id : Nat) (sid : String) : AppState :=
  { st with
    db := st.db.map (fun r =>
      if r.id == job_db_id then { r with scheduler_id := some sid } else r) }

/-- Embedding of `update_job_in_db`: UPDATE of every column except
`scheduler_id`, which the SQL statement does not touch. -/
def update_job_in_db (st : AppState) (job_db_id : Nat) (script_path : String)
    (hour minute second : Int) (frequency : String) (active : Int) : AppState :=
  { st with
    db := st.db.map (fun r =>
      if r.id == job_db_id then
        { r with
            script_path := script_path, hour := hour, minute := minute,
            second := second, frequency := frequency, active := active }
      else r) }

/-- Embedding of `remove_job_from_db`. -/
def remove_job_from_db (st : AppState) (job_db_id : Nat) : AppState :=
  { st with db := st.db.filter (fun r => r.id != job_db_id) }

/-- Embedding of `get_job_by_id`. -/
def get_job_by_id (st : AppState) (job_db_id : Nat) : Option JobRec :=
  st.db.find? (fun r => r.id == job_db_id)

/-- Trigger chosen by `schedule_job`'s if/elif chain from the frequency
token: cron for `daily`, a 7-day interval for `weekly` (`weeks=1`), a
28-day interval for `monthly` (`weeks=4`), an `n`-day interval for
`custom_<n>d` (raising when the day count does not parse), and a one-shot
date trigger at `run_date` for everything else. -/
def triggerFor (hour minute second : Int) (frequency : String) (run_date : Nat) :
    Except PyError Trigger :=
  if frequency == "daily" then Except.ok (Trigger.cron hour minute second)
  else if frequency == "weekly" then Except.ok (Trigger.interval 7)
  else if frequency == "monthly" then Except.ok (Trigger.interval 28)
  else if pyStartsWith "custom_" frequency then
    Except.map Trigger.interval (parseCustomDays frequency)
  else Except.ok (Trigger.date run_date)

/-- Embedding of `schedule_job`: builds the scheduler id string, computes
`run_date` (raising before any mutation when the time components are out of
range), chooses the trigger from the frequency token, registers it and
persists the scheduler id. On an error the returned state is the state as
mutated so far (nothing, since both raises precede all mutations). -/
def schedule_job (st : AppState) (job_db_id : Nat) (script_path : String)
    (hour minute second : Int) (frequency : String) (now : Nat) :
    AppState × Except PyError (String × Trigger) :=
  let scheduler_id := toString job_db_id ++ "_" ++ pyBasename script_path ++ "_" ++
      toString hour ++ "_" ++ toString minute ++ "_" ++ toString second
  match replaceHMS now hour minute second with
  | Except.error e => (st, Except.error e)
  | Except.ok rd0 =>
    match triggerFor hour minute second frequency (if rd0 < now then rd0 + usPerDay else rd0) with
    | Except.error e => (st, Except.error e)
    | Except.ok trig =>
      let st1 : AppState := { st with registry := registryAdd st.registry scheduler_id trig }
      (update_job_scheduler_id st1 job_db_id scheduler_id,
        Except.ok (scheduler_id, trig))

/-- Embedding of `reschedule_job`: remove the stored trigger when the row
exists and its `scheduler_id` is truthy (non-NULL and non-empty), then
schedule afresh. -/
def reschedule_job (st : AppState) (job_db_id : Nat) (script_path : String)
    (hour minute second : Int) (frequency : String) (now : Nat) :
    AppState × Except PyError (String × Trigger) :=
  let st1 :=
    match get_job_by_id st job_db_id with
    | some j =>
      match j.scheduler_id with
      | some sid =>
        if sid == "" then st
        else { st with registry := remove_scheduler_job st.registry sid }
      | none => st
    | none => st
  schedule_job st1 job_db_id script_path hour minute second frequency now

/-- Directory the GUI joins script names onto. -/
def SCRIPT_DIRECTORY : String := "D:\\WorldEconomicEngineProj\\IndiaStockExchange\\"

/-- Outcome surfaced by `SchedulerApp.schedule_script`. -/
inductive SchedResult where
  | okRes (job_db_id : Nat) (sid : String)
  | warnNoScript
  | errInvalidTime
  | errInvalidCustom
  | exn (e : PyError)
deriving Repr, DecidableEq

/-- Embedding of `SchedulerApp.schedule_script`: the inputs are the raw
widget strings. Integer parsing of the time fields (and of the custom
interval) is the only check before the row is inserted; the insert happens
before `schedule_job` runs, so an exception raised there leaves the row
persisted. -/
def schedule_script (st : AppState) (script_name hourS minuteS secondS : String)
    (freqSel customS : String) (now : Nat) : AppState × SchedResult :=
  if script_name == "" then (st, SchedResult.warnNoScript)
  else
    let script_path := SCRIPT_DIRECTORY ++ script_name
    match pyInt hourS, pyInt minuteS, pyInt secondS with
    | Except.ok hour, Except.ok minute, Except.ok second =>
      match
        (if freqSel == "custom" then
          Except.map (fun d => "custom_" ++ toString d ++ "d") (pyInt customS)
         else Except.ok freqSel) with
      | Except.error _ => (st, SchedResult.errInvalidCustom)
      | Except.ok frequency =>
        let p := add_job_to_db st script_path hour minute second frequency 1
        match schedule_job p.1 p.2 script_path hour minute second frequency now with
        | (st2, Except.ok pr) => (st2, SchedResult.okRes p.2 pr.1)
        | (st2, Except.error e) => (st2, SchedResult.exn e)
    | _, _, _ => (st, SchedResult.errInvalidTime)

/-- Embedding of `SchedulerApp.toggle_job_ui`. The new status branches on
`job[5] == "Active" or job[6] == 1`, where index 5 is the frequency column
and index 6 the active column. The activate branch calls `reschedule_job`
with five arguments for its six parameters, so python raises `TypeError`
before any rescheduling happens — after the UPDATE already committed. -/
def toggle_job_ui (st : AppState) (job_id : Nat) : AppState × Option PyError :=
  match get_job_by_id st job_id with
  | none => (st, none)
  | some job =>
    let new_status : Int := if job.frequency == "Active" || job.active == 1 then 0 else 1
    let st1 := update_job_in_db st job_id job.script_path job.hour job.minute job.second
      job.frequency new_status
    if new_status == 0 then
      match job.scheduler_id with
      | some sid =>
        if sid == "" then (st1, none)
        else ({ st1 with registry := remove_scheduler_job st1.registry sid }, none)
      | none => (st1, none)
    else
      (st1, some PyError.typeError)

/-- Embedding of `SchedulerApp.remove_job_ui` for a selected job id. -/
def remove_job_ui (st : AppState) (job_id : Nat) : AppState :=
  let st1 :=
    match get_job_by_id st job_id with
    | some job =>
      match job.scheduler_id with
      | some sid =>
        if sid == "" then st
        else { st with registry := remove_scheduler_job st.registry sid }
      | none => st
    | none => st
  remove_job_from_db st1 job_id

/-- Outcome surfaced by `EditJobWindow.save_changes`. -/
inductive EditResult where
  | okRes
  | errInvalidTime
  | errInvalidCustom
  | exn (e : PyError)
deriving Repr, DecidableEq

/-- Embedding of `EditJobWindow.save_changes`: parse the widget strings,
force `active` to 1 (the source reads `active = 1` under a comment claiming
the status is kept), persist every field, then reschedule. -/
def save_changes (st : AppState) (job_db_id : Nat) (script_path : String)
    (hourS minuteS secondS freqSel customS : String) (now : Nat) :
    AppState × EditResult :=
  match pyInt hourS, pyInt minuteS, pyInt secondS with
  | Except.ok hour, Except.ok minute, Except.ok second =>
    match
      (if freqSel == "custom" then
        Except.map (fun d => "custom_" ++ toString d ++ "d") (pyInt customS)
       else Except.ok freqSel) with
    | Except.error _ => (st, EditResult.errInvalidCustom)
    | Except.ok frequency =>
      let st1 := update_job_in_db st job_db_id script_path hour minute second frequency 1
      match reschedule_job st1 job_db_id script_path hour minute second frequency now with
      | (st2, Except.ok _) => (st2, EditResult.okRes)
      | (st2, Except.error e) => (st2, EditResult.exn e)
  | _, _, _ => (st, EditResult.errInvalidTime)

/-- Modelled from the spec: first fire instant of a cron trigger — the next
instant whose time of day (at microsecond zero) matches the fields, as the
Scheduler Core anchors daily fires at `timeOfDay`. -/
def cronFirst (now : Nat) (h m s : Int) : Nat :=
  let c := (now / usPerDay) * usPerDay +
    h.toNat * 3600000000 + m.toNat * 60000000 + s.toNat * 1000000
  if c ≤ now then c + usPerDay else c

/-- Modelled from the spec: the k-th fire instant of a registered trigger
(§4.2 Tick/Rearm). A date trigger fires once at its run date and completes;
a cron trigger fires every day at its time fields; an interval trigger
first fires one period after registration and is rearmed from the fixed
period, not from the actual fire time. -/
def fireAt : Trigger → Nat → Nat → Option Int
  | Trigger.date rd, _, 0 => some ((rd : Nat) : Int)
  | Trigger.date _, _, _ + 1 => none
  | Trigger.cron h m s, now, k => some ((cronFirst now h m s : Int) + (k : Int) * (usPerDay : Int))
  | Trigger.interval days, now, k =>
    some ((now : Int) + ((k : Int) + 1) * (days * (usPerDay : Int)))

/-- Result of attempting to launch the script subprocess. -/
inductive LaunchResult where
  | completed (exitCode : Int) (stdout stderr : String)
  | exn (msg : String)
deriving Repr, DecidableEq

/-- One line group appended to the execution log by `run_script`. -/
inductive LogEntry where
  | running (path : String)
  | finished (path : String) (output : String)
  | errored (path : String) (msg : String)
deriving Repr, DecidableEq

/-- Outcome kind of a log entry. -/
inductive EntryKind where
  | runningKind
  | finishedKind
  | erroredKind
deriving Repr, DecidableEq

/-- Kind of a log entry. -/
def LogEntry.kind : LogEntry → EntryKind
  | LogEntry.running _ => EntryKind.runningKind
  | LogEntry.finished _ _ => EntryKind.finishedKind
  | LogEntry.errored _ _ => EntryKind.erroredKind

/-- Embedding of the `execute` closure in `run_script`: log the start; when
the subprocess call returns, log a finished record with
`stdout + "\n" + stderr` — the exit code is never inspected; when the call
raises, log an error record instead. -/
def executeScript (script_path : String) (res : LaunchResult) : List LogEntry :=
  match res with
  | LaunchResult.completed _ out err =>
    [LogEntry.running script_path, LogEntry.finished script_path (out ++ "\n" ++ err)]
  | LaunchResult.exn msg =>
    [LogEntry.running script_path, LogEntry.errored script_path msg]

/-- Embedding of python `sub in s` for strings (after lowering). -/
def pyContains (sub : List Char) : List Char → Bool
  | [] => sub.isEmpty
  | c :: rest => List.isPrefixOf sub (c :: rest) || pyContains sub rest

/-- Line filter of `refresh_logs`: case-insensitive substring containment. -/
def lineMatches (kw line : String) : Bool :=
  pyContains kw.toLower.toList line.toLower.toList

/-- Embedding of `SchedulerApp.refresh_logs`: the displayed lines are the
log-file lines, in file (append) order, that contain the lowered keyword. -/
def refresh_logs (kw : String) (logs : List String) : List String :=
  logs.filter (fun line => lineMatches kw line)

/-- Decidable check of the spec invariant: a row is active exactly when its
`scheduler_id` is set and registered in the scheduler. -/
def jobStateOk (st : AppState) : Bool :=
  st.db.all (fun r =>
    (r.active == 1) ==
      (match r.scheduler_id with
       | some sid => st.registry.any (fun p => p.1 == sid)
       | none => false))

/-- Trigger component of a `schedule_job` outcome. -/
def trigOf (r : Except PyError (String × Trigger)) : Option Trigger :=
  r.toOption.map (fun p => p.2)

/-- Scheduler-id component of a `schedule_job` outcome. -/
def sidOf (r : Except PyError (String × Trigger)) : Option String :=
  r.toOption.map (fun p => p.1)

/-- Valid time components make `replaceHMS` return today's anchored instant. -/
theorem replaceHMS_valid (now : Nat) (h m s : Int)
    (H : 0 ≤ h ∧ h < 24 ∧ 0 ≤ m ∧ m < 60 ∧ 0 ≤ s ∧ s < 60) :
    replaceHMS now h m s = Except.ok (todayAt now h m s) := by
  unfold replaceHMS
  exact if_pos H

/-- Shifting the clock by one day shifts the anchored instant by one day. -/
theorem todayAt_add_day (now : Nat) (h m s : Int) :
    todayAt (now + usPerDay) h m s = todayAt now h m s + usPerDay := by
  unfold todayAt usPerDay
  omega

/-- Unknown frequency tokens (here `once`) get the one-shot date trigger. -/
theorem triggerFor_once (h m s : Int) (rd : Nat) :
    triggerFor h m s "once" rd = Except.ok (Trigger.date rd) := rfl

/-- The daily branch passes the time fields to a cron trigger. -/
theorem triggerFor_daily (h m s : Int) (rd : Nat) :
    triggerFor h m s "daily" rd = Except.ok (Trigger.cron h m s) := rfl

/-- The weekly branch builds a 7-day interval trigger. -/
theorem triggerFor_weekly (h m s : Int) (rd : Nat) :
    triggerFor h m s "weekly" rd = Except.ok (Trigger.interval 7) := rfl

/-- The monthly branch builds a 28-day interval trigger. -/
theorem triggerFor_monthly (h m s : Int) (rd : Nat) :
    triggerFor h m s "monthly" rd = Except.ok (Trigger.interval 28) := rfl

/-- A `custom_` token whose day count parses to `n` yields an `n`-day
interval trigger. -/
theorem triggerFor_custom (h m s : Int) (freq : String) (rd : Nat) (n : Int)
    (hcf : pyStartsWith "custom_" freq = true)
    (hcp : parseCustomDays freq = Except.ok n) :
    triggerFor h m s freq rd = Except.ok (Trigger.interval n) := by
  have hd : (freq == "daily") = false := by
    cases hfd : freq == "daily"
    · rfl
    · exact absurd hcf (by rw [eq_of_beq hfd]; decide)
  have hw : (freq == "weekly") = false := by
    cases hfw : freq == "weekly"
    · rfl
    · exact absurd hcf (by rw [eq_of_beq hfw]; decide)
  have hmo : (freq == "monthly") = false := by
    cases hfm : freq == "monthly"
    · rfl
    · exact absurd hcf (by rw [eq_of_beq hfm]; decide)
  unfold triggerFor
  simp only [hd, hw, hmo, hcf, hcp, Bool.false_eq_true, if_false, if_true, Except.map]

/-- Reduction of `schedule_job` once the time fields are valid and the
frequency's trigger is known. -/
theorem schedule_job_eq_of (st : AppState) (jid : Nat) (sp : String) (h m s : Int)
    (freq : String) (now : Nat) (trig : Trigger)
    (H : 0 ≤ h ∧ h < 24 ∧ 0 ≤ m ∧ m < 60 ∧ 0 ≤ s ∧ s < 60)
    (hT : triggerFor h m s freq
        (if todayAt now h m s < now then todayAt now h m s + usPerDay else todayAt now h m s) =
      Except.ok trig) :
    schedule_job st jid sp h m s freq now =
      (update_job_scheduler_id
        { st with
            registry := registryAdd st.registry
              (toString jid ++ "_" ++ pyBasename sp ++ "_" ++ toString h ++ "_" ++
                toString m ++ "_" ++ toString s) trig }
        jid
        (toString jid ++ "_" ++ pyBasename sp ++ "_" ++ toString h ++ "_" ++
          toString m ++ "_" ++ toString s),
       Except.ok
        (toString jid ++ "_" ++ pyBasename sp ++ "_" ++ toString h ++ "_" ++
          toString m ++ "_" ++ toString s, trig)) := by
  unfold schedule_job
  simp only [replaceHMS_valid now h m s H, hT]

/-- After `update_job_scheduler_id`, every row with the updated id carries
the new scheduler id. -/
theorem update_job_scheduler_id_spec (st : AppState) (jid : Nat) (sid : String) :
    ∀ r ∈ (update_job_scheduler_id st jid sid).db, r.id = jid → r.scheduler_id = some sid := by
  intro r hr hid
  unfold update_job_scheduler_id at hr
  simp only [List.mem_map] at hr
  obtain ⟨r0, hr0, heq⟩ := hr
  by_cases h0 : (r0.id == jid) = true
  · rw [if_pos h0] at heq
    rw [← heq]
  · rw [if_neg h0] at heq
    subst heq
    exact absurd (beq_iff_eq.mpr hid) h0

/-- Success of the frequency chooser does not depend on the run date. -/
theorem triggerFor_ok_transfer (h m s : Int) (freq : String) (rd rd' : Nat) (t : Trigger)
    (hT : triggerFor h m s freq rd = Except.ok t) :
    ∃ t', triggerFor h m s freq rd' = Except.ok t' := by
  unfold triggerFor at hT ⊢
  by_cases hd : (freq == "daily") = true
  · exact ⟨_, by rw [if_pos hd]⟩
  · rw [if_neg hd] at hT ⊢
    by_cases hw : (freq == "weekly") = true
    · exact ⟨_, by rw [if_pos hw]⟩
    · rw [if_neg hw] at hT ⊢
      by_cases hmo : (freq == "monthly") = true
      · exact ⟨_, by rw [if_pos hmo]⟩
      · rw [if_neg hmo] at hT ⊢
        by_cases hc : (pyStartsWith "custom_" freq) = true
        · rw [if_pos hc] at hT ⊢
          exact ⟨t, hT⟩
        · rw [if_neg hc]
          exact ⟨_, rfl⟩

/-- C1: counterexample. With `now` exactly at the configured time of day
(12:30:15 plus 500 microseconds, which `replace` keeps), the resolved fire
instant equals `now`: it is ≤ `now` yet it is NOT rolled forward to
tomorrow, because the source rolls only on the strict comparison
`run_date < datetime.now()`. -/
theorem c1_once_boundary_cex :
    trigOf (schedule_job ⟨[], [], 1⟩ 1 "a.py" 12 30 15 "once" 45015000500).2 =
      some (Trigger.date (todayAt 45015000500 12 30 15))
    ∧ todayAt 45015000500 12 30 15 ≤ 45015000500
    ∧ Trigger.date (todayAt 45015000500 12 30 15) ≠
        Trigger.date (todayAt 45015000500 12 30 15 + usPerDay) := by
  decide

/-- C1 (amended): for every valid time of day and recurrence `once`, the
fire instant is today at that time of day whenever that instant is ≥ `now`
(including exact equality), and is rolled forward to exactly tomorrow at
the same time of day whenever it is strictly before `now`; the date trigger
fires once at its run date and is never re-armed. -/
theorem c1_once_semantics (st : AppState) (jid : Nat) (sp : String) (h m s : Int) (now : Nat)
    (hh : 0 ≤ h ∧ h < 24) (hm : 0 ≤ m ∧ m < 60) (hs : 0 ≤ s ∧ s < 60) :
    (now ≤ todayAt now h m s →
      trigOf (schedule_job st jid sp h m s "once" now).2 =
        some (Trigger.date (todayAt now h m s)))
    ∧ (todayAt now h m s < now →
      trigOf (schedule_job st jid sp h m s "once" now).2 =
        some (Trigger.date (todayAt (now + usPerDay) h m s)))
    ∧ (∀ (rd k : Nat), fireAt (Trigger.date rd) now 0 = some ((rd : Int)) ∧
        fireAt (Trigger.date rd) now (k + 1) = none) := by
  have heq := schedule_job_eq_of st jid sp h m s "once" now _
    ⟨hh.1, hh.2, hm.1, hm.2, hs.1, hs.2⟩
    (triggerFor_once h m s
      (if todayAt now h m s < now then todayAt now h m s + usPerDay else todayAt now h m s))
  refine ⟨?_, ?_, fun rd k => ⟨rfl, rfl⟩⟩
  · intro hle
    rw [heq]
    simp [trigOf, Except.toOption, if_neg (not_lt.mpr hle)]
  · intro hlt
    rw [heq]
    simp [trigOf, Except.toOption, if_pos hlt, todayAt_add_day]

/-- C1: witness for the amended theorem at a concrete rolled-forward
input (time of day 01:02:03, clock at about 13:53). -/
theorem c1_once_semantics_witness :
    ((0:Int) ≤ 1 ∧ (1:Int) < 24) ∧ ((0:Int) ≤ 2 ∧ (2:Int) < 60) ∧
      ((0:Int) ≤ 3 ∧ (3:Int) < 60) ∧
    ((50000000000 ≤ todayAt 50000000000 1 2 3 →
        trigOf (schedule_job ⟨[], [], 1⟩ 1 "a.py" 1 2 3 "once" 50000000000).2 =
          some (Trigger.date (todayAt 50000000000 1 2 3)))
      ∧ (todayAt 50000000000 1 2 3 < 50000000000 →
        trigOf (schedule_job ⟨[], [], 1⟩ 1 "a.py" 1 2 3 "once" 50000000000).2 =
          some (Trigger.date (todayAt (50000000000 + usPerDay) 1 2 3)))
      ∧ (∀ (rd k : Nat), fireAt (Trigger.date rd) 50000000000 0 = some ((rd : Int)) ∧
          fireAt (Trigger.date rd) 50000000000 (k + 1) = none)) :=
  ⟨by decide, by decide, by decide,
    c1_once_semantics ⟨[], [], 1⟩ 1 "a.py" 1 2 3 50000000000
      (by decide) (by decide) (by decide)⟩

/-- C2: counterexample. At midnight with time of day 01:00:00 the
`once`-style computation fires today at 01:00:00 (instant 3600000000), but
the weekly branch registers a bare 7-day interval trigger whose first fire
is 7 days after registration (604800000000): the first weekly fire is NOT
computed the same way as `once`, since the source passes neither a start
date nor the time fields to the interval trigger. -/
theorem c2_weekly_ignores_time_cex :
    trigOf (schedule_job ⟨[], [], 1⟩ 1 "a.py" 1 0 0 "weekly" 0).2 =
      some (Trigger.interval 7)
    ∧ fireAt (Trigger.interval 7) 0 0 = some 604800000000
    ∧ trigOf (schedule_job ⟨[], [], 1⟩ 1 "a.py" 1 0 0 "once" 0).2 =
        some (Trigger.date 3600000000)
    ∧ fireAt (Trigger.date 3600000000) 0 0 = some 3600000000
    ∧ (604800000000 : Int) ≠ 3600000000 := by
  decide

/-- C2 (amended): for recurrence `weekly` the scheduler registers an
interval trigger of exactly 7 days with no start date, so the first fire is
7 days after registration time — the configured time of day is not used —
and consecutive fires differ by exactly 7 days. -/
theorem c2_weekly_semantics (st : AppState) (jid : Nat) (sp : String) (h m s : Int)
    (now : Nat) (hh : 0 ≤ h ∧ h < 24) (hm : 0 ≤ m ∧ m < 60) (hs : 0 ≤ s ∧ s < 60) :
    trigOf (schedule_job st jid sp h m s "weekly" now).2 = some (Trigger.interval 7)
    ∧ fireAt (Trigger.interval 7) now 0 = some ((now : Int) + 7 * (usPerDay : Int))
    ∧ (∀ k : Nat, ∃ t : Int, fireAt (Trigger.interval 7) now k = some t ∧
        fireAt (Trigger.interval 7) now (k + 1) = some (t + 7 * (usPerDay : Int))) := by
  have heq := schedule_job_eq_of st jid sp h m s "weekly" now _
    ⟨hh.1, hh.2, hm.1, hm.2, hs.1, hs.2⟩
    (triggerFor_weekly h m s
      (if todayAt now h m s < now then todayAt now h m s + usPerDay else todayAt now h m s))
  refine ⟨?_, ?_, ?_⟩
  · rw [heq]
    simp [trigOf, Except.toOption]
  · simp only [fireAt]
    norm_num
  · intro k
    refine ⟨(now : Int) + ((k : Int) + 1) * (7 * (usPerDay : Int)), rfl, ?_⟩
    simp only [fireAt]
    congr 1
    push_cast
    ring

/-- C2: witness for the amended theorem at a concrete input. -/
theorem c2_weekly_semantics_witness :
    ((0:Int) ≤ 1 ∧ (1:Int) < 24) ∧ ((0:Int) ≤ 0 ∧ (0:Int) < 60) ∧
      ((0:Int) ≤ 0 ∧ (0:Int) < 60) ∧
    (trigOf (schedule_job ⟨[], [], 1⟩ 1 "a.py" 1 0 0 "weekly" 0).2 =
        some (Trigger.interval 7)
      ∧ fireAt (Trigger.interval 7) 0 0 = some ((0 : Int) + 7 * (usPerDay : Int))
      ∧ (∀ k : Nat, ∃ t : Int, fireAt (Trigger.interval 7) 0 k = some t ∧
          fireAt (Trigger.interval 7) 0 (k + 1) = some (t + 7 * (usPerDay : Int)))) :=
  ⟨by decide, by decide, by decide,
    c2_weekly_semantics ⟨[], [], 1⟩ 1 "a.py" 1 0 0 0 (by decide) (by decide) (by decide)⟩

/-- C3: counterexample. Scheduling with hour `99` (parseable as an integer,
out of range) inserts the row into the job store first and only then raises
`ValueError` from `datetime.replace` — there is no validation error before
persistence. -/
theorem c3_persist_before_reject_cex :
    (schedule_script ⟨[], [], 1⟩ "s.py" "99" "0" "0" "daily" "" 0).1.db =
      [⟨1, SCRIPT_DIRECTORY ++ "s.py", 99, 0, 0, "daily", 1, none⟩]
    ∧ (schedule_script ⟨[], [], 1⟩ "s.py" "99" "0" "0" "daily" "" 0).2 =
      SchedResult.exn PyError.valueError := by
  decide

/-- C3 (amended): only integer-parse failures of the time fields are
rejected before any persistence or registration; an unknown recurrence
token (here the empty selection) is silently scheduled as a one-shot date
trigger, and a non-positive custom interval (`custom_0d`) is accepted and
registered as an interval trigger, both with the row persisted and no
error. -/
theorem c3_validation_amended :
    (∀ (st : AppState) (nm hS mS sS fS cS : String) (now : Nat),
        nm ≠ "" → pyInt hS = Except.error PyError.valueError →
        schedule_script st nm hS mS sS fS cS now = (st, SchedResult.errInvalidTime))
    ∧ ((schedule_script ⟨[], [], 1⟩ "s.py" "10" "0" "0" "" "" 0).1.registry =
        [("1_s.py_10_0_0", Trigger.date 36000000000)]
      ∧ (schedule_script ⟨[], [], 1⟩ "s.py" "10" "0" "0" "" "" 0).2 =
        SchedResult.okRes 1 "1_s.py_10_0_0")
    ∧ ((schedule_script ⟨[], [], 1⟩ "s.py" "10" "0" "0" "custom" "0" 0).1.registry =
        [("1_s.py_10_0_0", Trigger.interval 0)]
      ∧ (schedule_script ⟨[], [], 1⟩ "s.py" "10" "0" "0" "custom" "0" 0).2 =
        SchedResult.okRes 1 "1_s.py_10_0_0") := by
  refine ⟨?_, by decide, by decide⟩
  intro st nm hS mS sS fS cS now hnm hpy
  unfold schedule_script
  rw [if_neg (fun hcontr => hnm (eq_of_beq hcontr))]
  simp only [hpy]

/-- C3: witness for the universally quantified part of the amended
theorem. -/
theorem c3_validation_amended_witness :
    ("s.py" : String) ≠ "" ∧ pyInt "abc" = Except.error PyError.valueError ∧
    schedule_script ⟨[], [], 1⟩ "s.py" "abc" "0" "0" "daily" "" 0 =
      (⟨[], [], 1⟩, SchedResult.errInvalidTime) :=
  ⟨by decide, by rfl,
    c3_validation_amended.1 ⟨[], [], 1⟩ "s.py" "abc" "0" "0" "daily" "" 0
      (by decide) (by rfl)⟩

/-- C4: counterexample. A process that exits with status 1 is logged with
the same `finished` outcome kind as a process that exits with status 0:
the exit code is never inspected, so no distinct `ScriptError` outcome
exists. -/
theorem c4_exit_status_not_distinguished_cex :
    executeScript "s.py" (LaunchResult.completed 1 "" "boom") =
      [LogEntry.running "s.py", LogEntry.finished "s.py" "\nboom"]
    ∧ (executeScript "s.py" (LaunchResult.completed 1 "" "boom")).map LogEntry.kind =
      (executeScript "s.py" (LaunchResult.completed 0 "fine" "")).map LogEntry.kind := by
  decide

/-- C4 (amended): every completed launch, whatever its exit status,
produces exactly one `finished` record carrying the script path and the
combined output (never empty, as it contains the separating newline); a
launch exception produces exactly one `errored` record, a kind distinct
from `finished`. Non-zero exits are not distinguished from success. -/
theorem c4_execution_record_amended (p : String) (code : Int) (out err msg : String) :
    executeScript p (LaunchResult.completed code out err) =
      [LogEntry.running p, LogEntry.finished p (out ++ "\n" ++ err)]
    ∧ 1 ≤ (out ++ "\n" ++ err).length
    ∧ executeScript p (LaunchResult.exn msg) =
      [LogEntry.running p, LogEntry.errored p msg]
    ∧ (LogEntry.finished p (out ++ "\n" ++ err)).kind ≠ (LogEntry.errored p msg).kind := by
  refine ⟨rfl, ?_, rfl, by simp [LogEntry.kind]⟩
  have h0 : ("\n" : String).length = 1 := rfl
  have h1 : (out ++ "\n" ++ err).length = out.length + 1 + err.length := by
    simp [String.length_append, h0]
  omega

/-- C5: for every repeating frequency the registered trigger repeats at the
kind's fixed period with no drift: the daily cron trigger fires exactly 24
hours apart, the monthly interval trigger exactly 28 days apart, and a
`custom_<n>d` interval trigger exactly `n` days apart, for every number of
fire cycles. -/
theorem c5_repeating_periods (st : AppState) (jid : Nat) (sp : String) (h m s n : Int)
    (freq : String) (now : Nat)
    (hh : 0 ≤ h ∧ h < 24) (hmv : 0 ≤ m ∧ m < 60) (hsv : 0 ≤ s ∧ s < 60)
    (hcf : pyStartsWith "custom_" freq = true)
    (hcp : parseCustomDays freq = Except.ok n) (_hn : 1 ≤ n) :
    (trigOf (schedule_job st jid sp h m s "daily" now).2 = some (Trigger.cron h m s)
      ∧ ∀ k : Nat, ∃ t : Int, fireAt (Trigger.cron h m s) now k = some t ∧
          fireAt (Trigger.cron h m s) now (k + 1) = some (t + (usPerDay : Int)))
    ∧ (trigOf (schedule_job st jid sp h m s "monthly" now).2 = some (Trigger.interval 28)
      ∧ ∀ k : Nat, ∃ t : Int, fireAt (Trigger.interval 28) now k = some t ∧
          fireAt (Trigger.interval 28) now (k + 1) = some (t + 28 * (usPerDay : Int)))
    ∧ (trigOf (schedule_job st jid sp h m s freq now).2 = some (Trigger.interval n)
      ∧ ∀ k : Nat, ∃ t : Int, fireAt (Trigger.interval n) now k = some t ∧
          fireAt (Trigger.interval n) now (k + 1) = some (t + n * (usPerDay : Int))) := by
  have hv : 0 ≤ h ∧ h < 24 ∧ 0 ≤ m ∧ m < 60 ∧ 0 ≤ s ∧ s < 60 :=
    ⟨hh.1, hh.2, hmv.1, hmv.2, hsv.1, hsv.2⟩
  refine ⟨⟨?_, ?_⟩, ⟨?_, ?_⟩, ⟨?_, ?_⟩⟩
  · rw [schedule_job_eq_of st jid sp h m s "daily" now _ hv (triggerFor_daily h m s _)]
    simp [trigOf, Except.toOption]
  · intro k
    refine ⟨(cronFirst now h m s : Int) + (k : Int) * (usPerDay : Int), rfl, ?_⟩
    simp only [fireAt]
    congr 1
    push_cast
    ring
  · rw [schedule_job_eq_of st jid sp h m s "monthly" now _ hv (triggerFor_monthly h m s _)]
    simp [trigOf, Except.toOption]
  · intro k
    refine ⟨(now : Int) + ((k : Int) + 1) * (28 * (usPerDay : Int)), rfl, ?_⟩
    simp only [fireAt]
    congr 1
    push_cast
    ring
  · rw [schedule_job_eq_of st jid sp h m s freq now _ hv
      (triggerFor_custom h m s freq _ n hcf hcp)]
    simp [trigOf, Except.toOption]
  · intro k
    refine ⟨(now : Int) + ((k : Int) + 1) * (n * (usPerDay : Int)), rfl, ?_⟩
    simp only [fireAt]
    congr 1
    push_cast
    ring

/-- C5: witness at time of day 02:03:04, `custom_3d`, clock at epoch. -/
theorem c5_repeating_periods_witness :
    ((0:Int) ≤ 2 ∧ (2:Int) < 24) ∧ ((0:Int) ≤ 3 ∧ (3:Int) < 60) ∧
      ((0:Int) ≤ 4 ∧ (4:Int) < 60) ∧
      pyStartsWith "custom_" "custom_3d" = true ∧
      parseCustomDays "custom_3d" = Except.ok 3 ∧ (1:Int) ≤ 3 ∧
    ((trigOf (schedule_job ⟨[], [], 1⟩ 1 "a.py" 2 3 4 "daily" 0).2 =
          some (Trigger.cron 2 3 4)
        ∧ ∀ k : Nat, ∃ t : Int, fireAt (Trigger.cron 2 3 4) 0 k = some t ∧
            fireAt (Trigger.cron 2 3 4) 0 (k + 1) = some (t + (usPerDay : Int)))
      ∧ (trigOf (schedule_job ⟨[], [], 1⟩ 1 "a.py" 2 3 4 "monthly" 0).2 =
          some (Trigger.interval 28)
        ∧ ∀ k : Nat, ∃ t : Int, fireAt (Trigger.interval 28) 0 k = some t ∧
            fireAt (Trigger.interval 28) 0 (k + 1) = some (t + 28 * (usPerDay : Int)))
      ∧ (trigOf (schedule_job ⟨[], [], 1⟩ 1 "a.py" 2 3 4 "custom_3d" 0).2 =
          some (Trigger.interval 3)
        ∧ ∀ k : Nat, ∃ t : Int, fireAt (Trigger.interval 3) 0 k = some t ∧
            fireAt (Trigger.interval 3) 0 (k + 1) = some (t + 3 * (usPerDay : Int)))) :=
  ⟨by decide, by decide, by decide, by decide, by rfl, by decide,
    c5_repeating_periods ⟨[], [], 1⟩ 1 "a.py" 2 3 4 3 "custom_3d" 0
      (by decide) (by decide) (by decide) (by decide) (by rfl) (by decide)⟩

/-- C6: the toggle-reactivate path violates the active ⇔ registered-trigger
invariant. A job is created (invariant holds) and toggled inactive
(invariant still holds); toggling it active again persists `active = 1` and
then raises `TypeError`, because the source calls `reschedule_job` with
five arguments for its six parameters, leaving an active job whose stale
trigger id is not registered. -/
theorem c6_toggle_desync_bug :
    jobStateOk (schedule_script ⟨[], [], 1⟩ "a.py" "10" "0" "0" "daily" "" 0).1 = true
    ∧ jobStateOk
        (toggle_job_ui (schedule_script ⟨[], [], 1⟩ "a.py" "10" "0" "0" "daily" "" 0).1 1).1 =
      true
    ∧ (toggle_job_ui
        (toggle_job_ui (schedule_script ⟨[], [], 1⟩ "a.py" "10" "0" "0" "daily" "" 0).1 1).1
        1).2 = some PyError.typeError
    ∧ jobStateOk
        (toggle_job_ui
          (toggle_job_ui (schedule_script ⟨[], [], 1⟩ "a.py" "10" "0" "0" "daily" "" 0).1 1).1
          1).1 = false := by
  decide

/-- C7: editing a paused job forces it active. Starting from a job whose
persisted `active` is 0, `save_changes` completes without error and leaves
`active = 1` in the store — the source assigns `active = 1` under a comment
claiming the status is kept. -/
theorem c7_edit_forces_active_bug :
    ((⟨[⟨1, "D:\\x\\a.py", 10, 0, 0, "daily", 0, some "1_a.py_10_0_0"⟩], [], 2⟩ :
        AppState).db.map (fun r => r.active)) = [0]
    ∧ (save_changes ⟨[⟨1, "D:\\x\\a.py", 10, 0, 0, "daily", 0, some "1_a.py_10_0_0"⟩], [], 2⟩
        1 "D:\\x\\a.py" "11" "0" "0" "daily" "" 0).2 = EditResult.okRes
    ∧ ((save_changes ⟨[⟨1, "D:\\x\\a.py", 10, 0, 0, "daily", 0, some "1_a.py_10_0_0"⟩], [], 2⟩
        1 "D:\\x\\a.py" "11" "0" "0" "daily" "" 0).1.db.map (fun r => r.active)) = [1] := by
  decide

/-- C8: `remove_scheduler_job` removes exactly the entries with the given
trigger id, and when the id is absent from the registry it returns the
registry unchanged — no error escapes, since the lookup failure is caught. -/
theorem c8_cancel_semantics (reg : List (String × Trigger)) (sid : String) :
    remove_scheduler_job reg sid = reg.filter (fun p => p.1 != sid)
    ∧ (sid ∉ reg.map Prod.fst → remove_scheduler_job reg sid = reg) := by
  have hmain : remove_scheduler_job reg sid = reg.filter (fun p => p.1 != sid) := by
    unfold remove_scheduler_job scheduler_remove_job
    cases hany : reg.any (fun p => p.1 == sid) with
    | true => simp
    | false =>
      simp only [Bool.false_eq_true, if_false]
      symm
      apply List.filter_eq_self.mpr
      intro p hp
      cases hb : p.1 == sid with
      | true => exact absurd hb (List.any_eq_false.mp hany p hp)
      | false =>
        show (!(p.1 == sid)) = true
        rw [hb]
        rfl
  refine ⟨hmain, fun hmem => ?_⟩
  rw [hmain]
  apply List.filter_eq_self.mpr
  intro p hp
  have hne : p.1 ≠ sid := fun he => hmem (by rw [← he]; exact List.mem_map_of_mem Prod.fst hp)
  show (!(p.1 == sid)) = true
  rw [beq_eq_false_iff_ne.mpr hne]
  rfl

/-- C8: witness applying the no-op part at an absent trigger id. -/
theorem c8_cancel_semantics_witness :
    ("y" : String) ∉ ([("x", Trigger.interval 7)].map Prod.fst)
    ∧ remove_scheduler_job [("x", Trigger.interval 7)] "y" = [("x", Trigger.interval 7)] :=
  ⟨by decide, (c8_cancel_semantics [("x", Trigger.interval 7)] "y").2 (by decide)⟩

/-- C9: the log view returns exactly the lines matching the keyword
(case-insensitive substring), as a subsequence of the stored log, with
multiplicities preserved for matching lines; appending a new record keeps
it last, so the returned sequence follows append order, newest last. -/
theorem c9_log_filter (kw : String) (logs : List String) :
    List.Sublist (refresh_logs kw logs) logs
    ∧ (∀ line, line ∈ refresh_logs kw logs ↔ line ∈ logs ∧ lineMatches kw line = true)
    ∧ (∀ line, (refresh_logs kw logs).count line =
        if lineMatches kw line then logs.count line else 0)
    ∧ (∀ r, refresh_logs kw (logs ++ [r]) =
        refresh_logs kw logs ++ if lineMatches kw r then [r] else []) := by
  refine ⟨List.filter_sublist logs, ?_, ?_, ?_⟩
  · intro line
    simp [refresh_logs, List.mem_filter]
  · intro line
    by_cases hml : lineMatches kw line = true
    · rw [if_pos hml]
      exact List.count_filter hml
    · rw [if_neg hml]
      apply List.count_eq_zero.mpr
      intro hmem
      exact hml (List.mem_filter.mp hmem).2
  · intro r
    unfold refresh_logs
    rw [List.filter_append]
    congr 1
    by_cases hmr : lineMatches kw r = true
    · rw [if_pos hmr]
      simp [hmr]
    · rw [if_neg hmr]
      simp [hmr]

/-- Inversion of a successful `schedule_job` call: the returned id is the
deterministic format string, the time fields were valid, the frequency
chooser succeeded, and the final state is the registry insertion followed
by the scheduler-id update. -/
theorem schedule_job_ok_inv (st : AppState) (jid : Nat) (sp : String) (h m s : Int)
    (freq : String) (now : Nat) (st' : AppState) (sid : String) (trig : Trigger)
    (hrun : schedule_job st jid sp h m s freq now = (st', Except.ok (sid, trig))) :
    sid = toString jid ++ "_" ++ pyBasename sp ++ "_" ++ toString h ++ "_" ++
        toString m ++ "_" ++ toString s
    ∧ (0 ≤ h ∧ h < 24 ∧ 0 ≤ m ∧ m < 60 ∧ 0 ≤ s ∧ s < 60)
    ∧ triggerFor h m s freq
        (if todayAt now h m s < now then todayAt now h m s + usPerDay else todayAt now h m s) =
      Except.ok trig
    ∧ st' = update_job_scheduler_id
        { st with registry := registryAdd st.registry sid trig } jid sid := by
  by_cases hv : 0 ≤ h ∧ h < 24 ∧ 0 ≤ m ∧ m < 60 ∧ 0 ≤ s ∧ s < 60
  · simp only [schedule_job, replaceHMS_valid now h m s hv] at hrun
    cases hT : triggerFor h m s freq
        (if todayAt now h m s < now then todayAt now h m s + usPerDay
         else todayAt now h m s) with
    | error e =>
      rw [hT] at hrun
      simp at hrun
    | ok trig0 =>
      rw [hT] at hrun
      rw [Prod.mk.injEq] at hrun
      obtain ⟨hst, hok⟩ := hrun
      injection hok with hpair
      rw [Prod.mk.injEq] at hpair
      obtain ⟨hsid, htr⟩ := hpair
      subst hsid
      subst htr
      subst hst
      exact ⟨rfl, hv, rfl, rfl⟩
  · unfold schedule_job replaceHMS at hrun
    rw [if_neg hv] at hrun
    simp at hrun

/-- C10: a successful `schedule_job` returns the trigger id
`"<jobDbId>_<basename(scriptPath)>_<hour>_<minute>_<second>"`; the same
call succeeds with the same id for any other clock value and starting
state, and every job-store row with that job id ends up carrying exactly
that id in its `scheduler_id` field. -/
theorem c10_scheduler_id (st st2 : AppState) (jid : Nat) (sp : String) (h m s : Int)
    (freq : String) (now now2 : Nat) (st' : AppState) (sid : String) (trig : Trigger)
    (hrun : schedule_job st jid sp h m s freq now = (st', Except.ok (sid, trig))) :
    sid = toString jid ++ "_" ++ pyBasename sp ++ "_" ++ toString h ++ "_" ++
        toString m ++ "_" ++ toString s
    ∧ (∃ st2' trig2, schedule_job st2 jid sp h m s freq now2 = (st2', Except.ok (sid, trig2)))
    ∧ (∀ r ∈ st'.db, r.id = jid → r.scheduler_id = some sid) := by
  obtain ⟨hsid, hv, hT, hst⟩ := schedule_job_ok_inv st jid sp h m s freq now st' sid trig hrun
  refine ⟨hsid, ?_, ?_⟩
  · obtain ⟨trig2, hT2⟩ := triggerFor_ok_transfer h m s freq _
      (if todayAt now2 h m s < now2 then todayAt now2 h m s + usPerDay
       else todayAt now2 h m s) trig hT
    have heq2 := schedule_job_eq_of st2 jid sp h m s freq now2 trig2 hv hT2
    rw [hsid]
    exact ⟨_, trig2, heq2⟩
  · intro r hr hid
    rw [hst] at hr
    exact update_job_scheduler_id_spec _ jid sid r hr hid

/-- C10: witness at a concrete successful call. -/
theorem c10_scheduler_id_witness :
    schedule_job ⟨[⟨1, "D:\\x\\a.py", 10, 0, 0, "daily", 1, none⟩], [], 2⟩ 1 "D:\\x\\a.py"
        10 0 0 "daily" 0 =
      (⟨[⟨1, "D:\\x\\a.py", 10, 0, 0, "daily", 1, some "1_a.py_10_0_0"⟩],
        [("1_a.py_10_0_0", Trigger.cron 10 0 0)], 2⟩,
       Except.ok ("1_a.py_10_0_0", Trigger.cron 10 0 0))
    ∧ ("1_a.py_10_0_0" : String) = toString (1 : Nat) ++ "_" ++ pyBasename "D:\\x\\a.py" ++
        "_" ++ toString (10 : Int) ++ "_" ++ toString (0 : Int) ++ "_" ++ toString (0 : Int)
    ∧ (∃ st2' trig2, schedule_job ⟨[], [], 1⟩ 1 "D:\\x\\a.py" 10 0 0 "daily" 77777 =
        (st2', Except.ok ("1_a.py_10_0_0", trig2)))
    ∧ (∀ r ∈ (⟨[⟨1, "D:\\x\\a.py", 10, 0, 0, "daily", 1, some "1_a.py_10_0_0"⟩],
        [("1_a.py_10_0_0", Trigger.cron 10 0 0)], 2⟩ : AppState).db,
        r.id = 1 → r.scheduler_id = some "1_a.py_10_0_0") := by
  have h := c10_scheduler_id
    ⟨[⟨1, "D:\\x\\a.py", 10, 0, 0, "daily", 1, none⟩], [], 2⟩
    ⟨[], [], 1⟩ 1 "D:\\x\\a.py" 10 0 0 "daily" 0 77777
    ⟨[⟨1, "D:\\x\\a.py", 10, 0, 0, "daily", 1, some "1_a.py_10_0_0"⟩],
      [("1_a.py_10_0_0", Trigger.cron 10 0 0)], 2⟩
    "1_a.py_10_0_0" (Trigger.cron 10 0 0) (by rfl)
  exact ⟨by rfl, h.1, h.2.1, h.2.2⟩
